import Mathlib

/-!
Shallow embedding of `src/backend/server.js` (a small Express + PostgreSQL
shopping-list CRUD service) and proofs about its request handlers.

The relational store is modelled as an explicit state (`DB`): a list of rows
plus the SERIAL / timestamp counters the store would maintain.  Each Express
handler becomes a pure function from the state (and the parsed request) to a
`HandlerResult`: the HTTP response, the successor state, and the trace of
`(sql text, bound parameters)` pairs it submitted via `pool.query`.
-/

/-- A JSON value, as produced by `res.json(...)` and as sent to the store as
a bound query parameter (JS `undefined`/`null` parameters both arrive as SQL
NULL, modelled by `JVal.null`). -/
inductive JVal where
  | null : JVal
  | bool (b : Bool) : JVal
  | int (n : Int) : JVal
  | str (s : String) : JVal
  | arr (xs : List JVal) : JVal
  | obj (fields : List (String × JVal)) : JVal
deriving Repr, BEq

/-- A row of the `shopping_items` table, per the schema in `initDB`:
`id SERIAL PRIMARY KEY, name VARCHAR(255) NOT NULL, quantity INTEGER DEFAULT 1,
purchased BOOLEAN DEFAULT FALSE, created_at TIMESTAMP DEFAULT CURRENT_TIMESTAMP`.
Timestamps are modelled as naturals (larger = later). -/
structure Item where
  id : Nat
  name : String
  quantity : Int
  purchased : Bool
  created_at : Nat
deriving Repr, DecidableEq

/-- The store state: the table rows plus the counters the store uses to
assign `id` (SERIAL, starting at 1) and `created_at` (monotone clock). -/
structure DB where
  rows : List Item
  nextId : Nat
  nextTime : Nat
deriving Repr, DecidableEq

/-- The store right after `initDB` created the (empty) table. -/
def initDB : DB := { rows := [], nextId := 1, nextTime := 0 }

/-- Row serialization used by every handler that returns item data. -/
def itemToJson (it : Item) : JVal :=
  .obj [("id", .int it.id), ("name", .str it.name), ("quantity", .int it.quantity),
        ("purchased", .bool it.purchased), ("created_at", .int it.created_at)]

/-- An HTTP response: status code and JSON body. -/
structure HttpResponse where
  status : Nat
  body : JVal
deriving Repr, BEq

/-- What one handler invocation produces: the response, the successor store
state, and the `(sql text, parameters)` pairs submitted through `pool.query`. -/
structure HandlerResult where
  resp : HttpResponse
  db : DB
  queries : List (String × List JVal)
deriving Repr

/-- Parsed body of `POST /api/items`.  The handler destructures only
`name` and `quantity` (`const { name, quantity } = req.body`); a `purchased`
field, if supplied, is carried here but never read. -/
structure CreateBody where
  name : Option String
  quantity : Option Int
  purchased : Option Bool
deriving Repr, DecidableEq

/-- Parsed body of `PUT /api/items/:id`
(`const { name, quantity, purchased } = req.body`); absent fields are `none`. -/
structure UpdateBody where
  name : Option String
  quantity : Option Int
  purchased : Option Bool
deriving Repr, DecidableEq

/-- How the `pg` driver transmits a possibly-absent bound parameter:
JS `undefined` (field missing from the body) is sent as SQL NULL. -/
def sqlParam (f : α → JVal) : Option α → JVal
  | none => .null
  | some a => f a

/-- The `{ success: false, error: 'Item not found' }` body shared by the
three 404 branches. -/
def notFoundBody : JVal :=
  .obj [("success", .bool false), ("error", .str "Item not found")]

/-- `GET /health`: `res.json({ status: 'ok', timestamp: new Date().toISOString() })`.
The current time is passed in as `ts`. -/
def healthHandler (ts : String) : HttpResponse :=
  { status := 200, body := .obj [("status", .str "ok"), ("timestamp", .str ts)] }

/-- SQL text of the list query (`GET /api/items`). -/
def listQueryText : String :=
  "SELECT * FROM shopping_items ORDER BY purchased ASC, created_at DESC"

/-- The `ORDER BY purchased ASC, created_at DESC` comparison: unpurchased
rows (`FALSE < TRUE` in PostgreSQL) come first; within equal `purchased`,
later `created_at` comes first. -/
def listLe (a b : Item) : Bool :=
  (!a.purchased && b.purchased) || (a.purchased == b.purchased && b.created_at ≤ a.created_at)

/-- `GET /api/items`: one SELECT with ORDER BY, rows returned in full. -/
def getItemsHandler (db : DB) : HandlerResult :=
  let sorted := db.rows.mergeSort listLe
  { resp := { status := 200,
              body := .obj [("success", .bool true), ("data", .arr (sorted.map itemToJson))] },
    db := db,
    queries := [(listQueryText, [])] }

/-- SQL text of the get-by-id query (`GET /api/items/:id`). -/
def getByIdQueryText : String := "SELECT * FROM shopping_items WHERE id = $1"

/-- `GET /api/items/:id`: SELECT by id; 404 when no row matches, else the
first returned row. -/
def getItemHandler (db : DB) (id : Nat) : HandlerResult :=
  let found := db.rows.filter (fun r => r.id == id)
  let qs := [(getByIdQueryText, [JVal.int id])]
  match found with
  | [] => { resp := { status := 404, body := notFoundBody }, db := db, queries := qs }
  | r :: _ =>
      { resp := { status := 200, body := .obj [("success", .bool true), ("data", itemToJson r)] },
        db := db, queries := qs }

/-- SQL text of the insert (`POST /api/items`). -/
def insertQueryText : String :=
  "INSERT INTO shopping_items (name, quantity) VALUES ($1, $2) RETURNING *"

/-- JS `!name`: true when `name` is absent (`undefined`) or the empty string. -/
def nameFalsy (n : Option String) : Prop := n = none ∨ n = some ""

instance : DecidablePred nameFalsy := fun n => by unfold nameFalsy; infer_instance

/-- `const qty = quantity && quantity > 0 ? quantity : 1;` — an absent or
zero quantity is falsy, a negative one fails `quantity > 0`; all default to 1. -/
def effectiveQty : Option Int → Int
  | none => 1
  | some q => if 0 < q then q else 1

/-- `POST /api/items`: 400 when `!name`, otherwise INSERT (name, qty) with
the table defaults `purchased = FALSE`, `id = nextId`, `created_at = now`,
responding 201 with the inserted row. -/
def postItemHandler (db : DB) (b : CreateBody) : HandlerResult :=
  if nameFalsy b.name then
    { resp := { status := 400,
                body := .obj [("success", .bool false), ("error", .str "Item name is required")] },
      db := db, queries := [] }
  else
    let name := b.name.getD ""
    let qty := effectiveQty b.quantity
    let newItem : Item :=
      { id := db.nextId, name := name, quantity := qty, purchased := false,
        created_at := db.nextTime }
    { resp := { status := 201,
                body := .obj [("success", .bool true), ("data", itemToJson newItem)] },
      db := { rows := db.rows ++ [newItem], nextId := db.nextId + 1, nextTime := db.nextTime + 1 },
      queries := [(insertQueryText, [JVal.str name, JVal.int qty])] }

/-- SQL text of the coalescing update (`PUT /api/items/:id`). -/
def updateQueryText : String :=
  "UPDATE shopping_items SET name = COALESCE($1, name), quantity = COALESCE($2, quantity), purchased = COALESCE($3, purchased) WHERE id = $4 RETURNING *"

/-- Effect of `SET name = COALESCE($1, name), quantity = COALESCE($2, quantity),
purchased = COALESCE($3, purchased)` on one row: a NULL parameter keeps the
stored value. -/
def applyCoalesce (r : Item) (b : UpdateBody) : Item :=
  { r with name := b.name.getD r.name, quantity := b.quantity.getD r.quantity,
           purchased := b.purchased.getD r.purchased }

/-- `PUT /api/items/:id`: coalescing UPDATE of every row matching the id
(at most one, since `id` is the primary key); 404 when no row matched,
else 200 with the first updated row. -/
def putItemHandler (db : DB) (id : Nat) (b : UpdateBody) : HandlerResult :=
  let newRows := db.rows.map (fun r => if r.id == id then applyCoalesce r b else r)
  let returned := newRows.filter (fun r => r.id == id)
  let qs := [(updateQueryText,
              [sqlParam JVal.str b.name, sqlParam JVal.int b.quantity,
               sqlParam JVal.bool b.purchased, JVal.int id])]
  match returned with
  | [] => { resp := { status := 404, body := notFoundBody },
            db := { db with rows := newRows }, queries := qs }
  | r :: _ =>
      { resp := { status := 200, body := .obj [("success", .bool true), ("data", itemToJson r)] },
        db := { db with rows := newRows }, queries := qs }

/-- SQL text of the delete (`DELETE /api/items/:id`). -/
def deleteQueryText : String := "DELETE FROM shopping_items WHERE id = $1 RETURNING *"

/-- `DELETE /api/items/:id`: DELETE by id; 404 when nothing was deleted,
else 200 with a message (the deleted row's data is discarded). -/
def deleteItemHandler (db : DB) (id : Nat) : HandlerResult :=
  let deleted := db.rows.filter (fun r => r.id == id)
  let remaining := db.rows.filter (fun r => !(r.id == id))
  let qs := [(deleteQueryText, [JVal.int id])]
  match deleted with
  | [] => { resp := { status := 404, body := notFoundBody },
            db := { db with rows := remaining }, queries := qs }
  | _ :: _ =>
      { resp := { status := 200,
                  body := .obj [("success", .bool true), ("message", .str "Item deleted")] },
        db := { db with rows := remaining }, queries := qs }

/-- SQL text of the three stats counts (`GET /api/stats`). -/
def statsTotalQueryText : String := "SELECT COUNT(*) as total FROM shopping_items"

/-- SQL text of the purchased count. -/
def statsPurchasedQueryText : String :=
  "SELECT COUNT(*) as purchased FROM shopping_items WHERE purchased = true"

/-- SQL text of the pending count. -/
def statsPendingQueryText : String :=
  "SELECT COUNT(*) as pending FROM shopping_items WHERE purchased = false"

/-- `GET /api/stats`: three COUNT queries over the same state, wrapped as
`{ total, purchased, pending }`. -/
def getStatsHandler (db : DB) : HandlerResult :=
  let total := db.rows.length
  let purchased := (db.rows.filter (fun r => r.purchased)).length
  let pending := (db.rows.filter (fun r => !r.purchased)).length
  { resp := { status := 200,
              body := .obj [("success", .bool true),
                            ("data", .obj [("total", .int total), ("purchased", .int purchased),
                                           ("pending", .int pending)])] },
    db := db,
    queries := [(statsTotalQueryText, []), (statsPurchasedQueryText, []),
                (statsPendingQueryText, [])] }

/-- One state-mutating API call, for reasoning about operation sequences. -/
inductive Op where
  | create (b : CreateBody) : Op
  | update (id : Nat) (b : UpdateBody) : Op
  | delete (id : Nat) : Op
deriving Repr, DecidableEq

/-- The store state a single operation leaves behind. -/
def applyOp (db : DB) : Op → DB
  | .create b => (postItemHandler db b).db
  | .update id b => (putItemHandler db id b).db
  | .delete id => (deleteItemHandler db id).db

/-- The store state after a sequence of create/update/delete calls. -/
def applyOps (db : DB) (ops : List Op) : DB := ops.foldl applyOp db

/-- A JSON object with a field of the given key. -/
def hasField (j : JVal) (k : String) : Bool :=
  match j with
  | .obj fs => fs.any (fun f => f.fst == k)
  | _ => false

/-- The uniform response envelope: a `success` flag together with a `data`,
`message`, or `error` field. -/
def isEnvelope (j : JVal) : Bool :=
  hasField j "success" && (hasField j "data" || hasField j "message" || hasField j "error")

/-- C2: for every request to every endpoint, each SQL text submitted to the
store is a fixed constant string, independent of the store state and of all
request input; path parameters and body fields appear only in the bound
parameter lists. -/
theorem C2_sql_text_constant (db : DB) (id : Nat) (cb : CreateBody) (ub : UpdateBody) :
    ((getItemsHandler db).queries.map Prod.fst).all (fun t => t == listQueryText) = true ∧
    ((getItemHandler db id).queries.map Prod.fst).all (fun t => t == getByIdQueryText) = true ∧
    ((postItemHandler db cb).queries.map Prod.fst).all (fun t => t == insertQueryText) = true ∧
    ((putItemHandler db id ub).queries.map Prod.fst).all (fun t => t == updateQueryText) = true ∧
    ((deleteItemHandler db id).queries.map Prod.fst).all (fun t => t == deleteQueryText) = true ∧
    ((getStatsHandler db).queries.map Prod.fst).all
      (fun t => t == statsTotalQueryText || t == statsPurchasedQueryText
        || t == statsPendingQueryText) = true := by
  refine ⟨by simp [getItemsHandler], ?_, ?_, ?_, ?_, by simp [getStatsHandler]⟩
  · simp only [getItemsHandler, getItemHandler]
    split <;> simp
  · simp only [postItemHandler]
    split <;> simp
  · simp only [putItemHandler]
    split <;> simp
  · simp only [deleteItemHandler]
    split <;> simp

/-- C4: a create request whose name is absent or empty yields a 400 response
with success:false, no row is inserted, and no SQL is submitted. -/
theorem C4_create_missing_name (db : DB) (cb : CreateBody) (h : nameFalsy cb.name) :
    (postItemHandler db cb).resp.status = 400 ∧
    (postItemHandler db cb).resp.body =
      .obj [("success", .bool false), ("error", .str "Item name is required")] ∧
    (postItemHandler db cb).db = db ∧
    (postItemHandler db cb).queries = [] := by
  simp [postItemHandler, if_pos h]

/-- Witness for C4: creating with an absent name against the empty store. -/
theorem C4_create_missing_name_witness :
    nameFalsy (none : Option String) ∧
    ((postItemHandler initDB ⟨none, none, none⟩).resp.status = 400 ∧
     (postItemHandler initDB ⟨none, none, none⟩).resp.body =
       .obj [("success", .bool false), ("error", .str "Item name is required")] ∧
     (postItemHandler initDB ⟨none, none, none⟩).db = initDB ∧
     (postItemHandler initDB ⟨none, none, none⟩).queries = []) :=
  ⟨Or.inl rfl, C4_create_missing_name initDB ⟨none, none, none⟩ (Or.inl rfl)⟩

/-- C9 fails as stated: the successful response of GET /health is not wrapped
in the uniform envelope — its body has no success flag at all. -/
theorem C9_counterexample :
    ¬ (isEnvelope (healthHandler "2026-01-01T00:00:00.000Z").body = true) := by
  decide

/-- C9 amended: every response (success or failure alike) of the six API
endpoints carries the uniform envelope, but GET /health does not: its body is
`{status, timestamp}` with no success flag. -/
theorem C9_amended_envelope (db : DB) (id : Nat) (cb : CreateBody) (ub : UpdateBody)
    (ts : String) :
    isEnvelope (getItemsHandler db).resp.body = true ∧
    isEnvelope (getItemHandler db id).resp.body = true ∧
    isEnvelope (postItemHandler db cb).resp.body = true ∧
    isEnvelope (putItemHandler db id ub).resp.body = true ∧
    isEnvelope (deleteItemHandler db id).resp.body = true ∧
    isEnvelope (getStatsHandler db).resp.body = true ∧
    (healthHandler ts).body = .obj [("status", .str "ok"), ("timestamp", .str ts)] := by
  refine ⟨by simp [getItemsHandler, isEnvelope, hasField], ?_, ?_, ?_, ?_,
          by simp [getStatsHandler, isEnvelope, hasField], rfl⟩
  · simp only [getItemHandler]
    split <;> simp [isEnvelope, hasField, notFoundBody]
  · simp only [postItemHandler]
    split <;> simp [isEnvelope, hasField]
  · simp only [putItemHandler]
    split <;> simp [isEnvelope, hasField, notFoundBody]
  · simp only [deleteItemHandler]
    split <;> simp [isEnvelope, hasField, notFoundBody]

/-- C10: the create handler never reads a purchased field supplied in the
body, and the row it inserts always has purchased = false. -/
theorem C10_create_ignores_purchased (db : DB) (cb : CreateBody) (p : Option Bool)
    (h : ¬ nameFalsy cb.name) :
    postItemHandler db { cb with purchased := p } = postItemHandler db cb ∧
    ∃ it : Item, (postItemHandler db cb).db.rows = db.rows ++ [it] ∧ it.purchased = false := by
  constructor
  · rfl
  · simp only [postItemHandler, if_neg h]
    exact ⟨_, rfl, rfl⟩

/-- Witness for C10: creating "Milk" with purchased:true in the body. -/
theorem C10_create_ignores_purchased_witness :
    ¬ nameFalsy (some "Milk") ∧
    (postItemHandler initDB ⟨some "Milk", none, some true⟩ =
       postItemHandler initDB ⟨some "Milk", none, none⟩ ∧
     ∃ it : Item, (postItemHandler initDB ⟨some "Milk", none, none⟩).db.rows =
       initDB.rows ++ [it] ∧ it.purchased = false) :=
  ⟨by decide, C10_create_ignores_purchased initDB ⟨some "Milk", none, none⟩ (some true) (by decide)⟩

/-- The list comparison is total. -/
theorem listLe_total : ∀ (a b : Item), listLe a b || listLe b a := by
  intro a b
  simp only [listLe]
  cases a.purchased <;> cases b.purchased <;> simp <;> omega

/-- The list comparison is transitive. -/
theorem listLe_trans : ∀ (a b c : Item), listLe a b → listLe b c → listLe a c := by
  intro a b c hab hbc
  simp only [listLe] at *
  cases ha : a.purchased <;> cases hb : b.purchased <;> cases hc : c.purchased <;>
    simp_all <;> omega

/-- What one comparison step says, in the spec's terms. -/
theorem listLe_spec {a b : Item} (h : listLe a b = true) :
    (a.purchased = false ∧ b.purchased = true) ∨
    (a.purchased = b.purchased ∧ b.created_at ≤ a.created_at) := by
  cases ha : a.purchased <;> cases hb : b.purchased <;> simp_all [listLe]

/-- C5: the list endpoint responds 200, leaves the store unchanged, and its
data array is exactly the stored rows (a permutation — no pagination, nothing
dropped) ordered by purchased ascending then created_at descending. -/
theorem C5_list_sorted (db : DB) :
    (getItemsHandler db).resp.status = 200 ∧
    (getItemsHandler db).db = db ∧
    ∃ l : List Item,
      (getItemsHandler db).resp.body =
        .obj [("success", .bool true), ("data", .arr (l.map itemToJson))] ∧
      l.Perm db.rows ∧
      l.Pairwise (fun a b =>
        (a.purchased = false ∧ b.purchased = true) ∨
        (a.purchased = b.purchased ∧ b.created_at ≤ a.created_at)) := by
  refine ⟨rfl, rfl, db.rows.mergeSort listLe, rfl,
          List.mergeSort_perm db.rows listLe, ?_⟩
  exact (List.sorted_mergeSort listLe_trans listLe_total db.rows).imp
    (fun h => listLe_spec h)

/-- C3: create with a valid name is never rejected (201); the inserted row's
quantity is the supplied value verbatim when that value is present and
strictly positive, and 1 when the quantity is absent, zero, or negative. -/
theorem C3_create_effective_quantity (db : DB) (cb : CreateBody) (h : ¬ nameFalsy cb.name) :
    (postItemHandler db cb).resp.status = 201 ∧
    ∃ it : Item, (postItemHandler db cb).db.rows = db.rows ++ [it] ∧
      (∀ q : Int, cb.quantity = some q → 0 < q → it.quantity = q) ∧
      ((cb.quantity = none ∨ ∃ q : Int, q ≤ 0 ∧ cb.quantity = some q) → it.quantity = 1) := by
  simp only [postItemHandler, if_neg h]
  refine ⟨trivial, _, rfl, ?_, ?_⟩
  · intro q hq hpos
    simp [effectiveQty, hq, if_pos hpos]
  · rintro (hn | ⟨q, hq, hsome⟩)
    · simp [effectiveQty, hn]
    · simp [effectiveQty, hsome, if_neg (not_lt.mpr hq)]

/-- Witness for C3: creating "Milk" with quantity -3 against the empty store. -/
theorem C3_create_effective_quantity_witness :
    ¬ nameFalsy (some "Milk") ∧
    ((postItemHandler initDB ⟨some "Milk", some (-3), none⟩).resp.status = 201 ∧
     ∃ it : Item,
       (postItemHandler initDB ⟨some "Milk", some (-3), none⟩).db.rows =
         initDB.rows ++ [it] ∧
       (∀ q : Int, (some (-3) : Option Int) = some q → 0 < q → it.quantity = q) ∧
       (((some (-3) : Option Int) = none ∨
          ∃ q : Int, q ≤ 0 ∧ (some (-3) : Option Int) = some q) → it.quantity = 1)) :=
  ⟨by decide, C3_create_effective_quantity initDB ⟨some "Milk", some (-3), none⟩ (by decide)⟩

/-- When no row carries the id, filtering for it yields nothing. -/
theorem filter_id_eq_nil {l : List Item} {id : Nat} (h : ∀ r ∈ l, r.id ≠ id) :
    l.filter (fun r => r.id == id) = [] := by
  induction l with
  | nil => rfl
  | cons a t ih =>
      have ha : (a.id == id) = false := by
        simpa using h a (List.mem_cons_self a t)
      simp [List.filter, ha, ih (fun r hr => h r (List.mem_cons_of_mem a hr))]

/-- When no row carries the id, the coalescing UPDATE rewrites nothing. -/
theorem map_update_eq_self {l : List Item} {id : Nat} {b : UpdateBody}
    (h : ∀ r ∈ l, r.id ≠ id) :
    l.map (fun r => if r.id == id then applyCoalesce r b else r) = l := by
  induction l with
  | nil => rfl
  | cons a t ih =>
      have ha : ¬ ((a.id == id) = true) := by
        simpa using h a (List.mem_cons_self a t)
      rw [List.map_cons, if_neg ha, ih (fun r hr => h r (List.mem_cons_of_mem a hr))]

/-- When no row carries the id, the DELETE removes nothing. -/
theorem filter_ne_id_eq_self {l : List Item} {id : Nat} (h : ∀ r ∈ l, r.id ≠ id) :
    l.filter (fun r => !(r.id == id)) = l := by
  induction l with
  | nil => rfl
  | cons a t ih =>
      have ha : (a.id == id) = false := by
        simpa using h a (List.mem_cons_self a t)
      simp [List.filter, ha, ih (fun r hr => h r (List.mem_cons_of_mem a hr))]

/-- C6: for an id that matches no stored row, GET, PUT and DELETE on
/api/items/:id each respond 404 with the success:false body and leave the
store state unchanged. -/
theorem C6_not_found (db : DB) (id : Nat) (ub : UpdateBody)
    (h : ∀ r ∈ db.rows, r.id ≠ id) :
    (getItemHandler db id).resp = { status := 404, body := notFoundBody } ∧
    (getItemHandler db id).db = db ∧
    (putItemHandler db id ub).resp = { status := 404, body := notFoundBody } ∧
    (putItemHandler db id ub).db = db ∧
    (deleteItemHandler db id).resp = { status := 404, body := notFoundBody } ∧
    (deleteItemHandler db id).db = db := by
  have hfil := filter_id_eq_nil h
  have hmap := map_update_eq_self (b := ub) h
  have hkeep := filter_ne_id_eq_self h
  refine ⟨?_, ?_, ?_, ?_, ?_, ?_⟩ <;>
    simp only [getItemHandler, putItemHandler, deleteItemHandler, hfil, hmap, hkeep]

/-- Witness for C6: id 1 against the empty store. -/
theorem C6_not_found_witness :
    (∀ r ∈ initDB.rows, r.id ≠ 1) ∧
    ((getItemHandler initDB 1).resp = { status := 404, body := notFoundBody } ∧
     (getItemHandler initDB 1).db = initDB ∧
     (putItemHandler initDB 1 ⟨none, none, none⟩).resp = { status := 404, body := notFoundBody } ∧
     (putItemHandler initDB 1 ⟨none, none, none⟩).db = initDB ∧
     (deleteItemHandler initDB 1).resp = { status := 404, body := notFoundBody } ∧
     (deleteItemHandler initDB 1).db = initDB) :=
  ⟨by decide, C6_not_found initDB 1 ⟨none, none, none⟩ (by decide)⟩

/-- After the coalescing UPDATE, the rows matching the id are exactly the
coalesced versions of the rows that matched before (the update keeps id). -/
theorem filter_map_update (l : List Item) (id : Nat) (b : UpdateBody) :
    (l.map (fun r => if r.id == id then applyCoalesce r b else r)).filter
        (fun r => r.id == id) =
      (l.filter (fun r => r.id == id)).map (fun r => applyCoalesce r b) := by
  induction l with
  | nil => rfl
  | cons a t ih =>
      by_cases ha : (a.id == id) = true
      · have hca : ((applyCoalesce a b).id == id) = true := ha
        rw [List.map_cons, if_pos ha, List.filter_cons, List.filter_cons]
        rw [if_pos hca, if_pos ha, List.map_cons, ih]
      · rw [List.map_cons, if_neg ha, List.filter_cons, List.filter_cons]
        rw [if_neg ha, if_neg ha, ih]

/-- C7: updating the (unique) stored row carrying the id responds 200 with
the full updated record; each field absent from the body keeps its stored
value, id and created_at are never modified, and the stored row with that id
becomes exactly the returned record. -/
theorem C7_update_coalesce (db : DB) (id : Nat) (ub : UpdateBody) (r : Item)
    (h : db.rows.filter (fun x => x.id == id) = [r]) :
    (putItemHandler db id ub).resp.status = 200 ∧
    (putItemHandler db id ub).resp.body =
      .obj [("success", .bool true), ("data", itemToJson (applyCoalesce r ub))] ∧
    (applyCoalesce r ub).id = r.id ∧
    (applyCoalesce r ub).created_at = r.created_at ∧
    (ub.name = none → (applyCoalesce r ub).name = r.name) ∧
    (ub.quantity = none → (applyCoalesce r ub).quantity = r.quantity) ∧
    (ub.purchased = none → (applyCoalesce r ub).purchased = r.purchased) ∧
    (putItemHandler db id ub).db.rows.filter (fun x => x.id == id) =
      [applyCoalesce r ub] := by
  have key : ((db.rows.map (fun x => if x.id == id then applyCoalesce x ub else x)).filter
      (fun x => x.id == id)) = [applyCoalesce r ub] := by
    rw [filter_map_update, h]; rfl
  simp only [putItemHandler, key]
  refine ⟨by trivial, by trivial, by trivial, by trivial, ?_, ?_, ?_, by trivial⟩
  · intro hn; simp [applyCoalesce, hn]
  · intro hq; simp [applyCoalesce, hq]
  · intro hp; simp [applyCoalesce, hp]

/-- Witness for C7: updating only purchased:true on a store holding one row. -/
theorem C7_update_coalesce_witness :
    (DB.mk [⟨1, "Milk", 2, false, 0⟩] 2 1).rows.filter (fun x => x.id == 1) =
      [(⟨1, "Milk", 2, false, 0⟩ : Item)] ∧
    ((putItemHandler (DB.mk [⟨1, "Milk", 2, false, 0⟩] 2 1) 1 ⟨none, none, some true⟩).resp.status
        = 200 ∧
     (putItemHandler (DB.mk [⟨1, "Milk", 2, false, 0⟩] 2 1) 1 ⟨none, none, some true⟩).resp.body =
       .obj [("success", .bool true),
             ("data", itemToJson (applyCoalesce ⟨1, "Milk", 2, false, 0⟩ ⟨none, none, some true⟩))] ∧
     (applyCoalesce ⟨1, "Milk", 2, false, 0⟩ ⟨none, none, some true⟩).id = 1 ∧
     (applyCoalesce ⟨1, "Milk", 2, false, 0⟩ ⟨none, none, some true⟩).created_at = 0 ∧
     ((none : Option String) = none →
       (applyCoalesce ⟨1, "Milk", 2, false, 0⟩ ⟨none, none, some true⟩).name = "Milk") ∧
     ((none : Option Int) = none →
       (applyCoalesce ⟨1, "Milk", 2, false, 0⟩ ⟨none, none, some true⟩).quantity = 2) ∧
     ((some true : Option Bool) = none →
       (applyCoalesce ⟨1, "Milk", 2, false, 0⟩ ⟨none, none, some true⟩).purchased = false) ∧
     (putItemHandler (DB.mk [⟨1, "Milk", 2, false, 0⟩] 2 1) 1
         ⟨none, none, some true⟩).db.rows.filter (fun x => x.id == 1) =
       [applyCoalesce ⟨1, "Milk", 2, false, 0⟩ ⟨none, none, some true⟩]) :=
  ⟨by decide, C7_update_coalesce (DB.mk [⟨1, "Milk", 2, false, 0⟩] 2 1) 1
    ⟨none, none, some true⟩ ⟨1, "Milk", 2, false, 0⟩ (by decide)⟩

/-- C8: after any sequence of create/update/delete operations on the fresh
store, the stats endpoint reports counts with total = purchased + pending. -/
theorem C8_stats_total (ops : List Op) :
    ∃ p q : Nat,
      (getStatsHandler (applyOps initDB ops)).resp.body =
        .obj [("success", .bool true),
              ("data", .obj [("total", .int (p + q)), ("purchased", .int p),
                             ("pending", .int q)])] := by
  refine ⟨((applyOps initDB ops).rows.filter (fun r => r.purchased)).length,
          ((applyOps initDB ops).rows.filter (fun r => !r.purchased)).length, ?_⟩
  simp only [getStatsHandler]
  have hlen := List.length_eq_length_filter_add
    (l := (applyOps initDB ops).rows) (fun r => r.purchased)
  rw [hlen]
  push_cast
  rfl

/-- C1 fails as stated: the PUT handler performs no quantity validation, so
an update supplying quantity -3 to the item just created stores -3. -/
theorem C1_counterexample :
    ¬ (∀ r ∈ (applyOps initDB
        [Op.create ⟨some "Milk", none, none⟩,
         Op.update 1 ⟨none, some (-3), none⟩]).rows, 1 ≤ r.quantity) := by
  decide

/-- The effective create quantity is always at least 1. -/
theorem one_le_effectiveQty (q : Option Int) : 1 ≤ effectiveQty q := by
  cases q with
  | none => simp [effectiveQty]
  | some v =>
      simp only [effectiveQty]
      split <;> omega

/-- An operation whose update body never supplies a non-positive quantity
(creates and deletes are unrestricted). -/
def opQtyOK : Op → Prop
  | .update _ b => ∀ q : Int, b.quantity = some q → 1 ≤ q
  | _ => True

/-- The rows the PUT handler stores, in both its branches. -/
theorem putItemHandler_rows (db : DB) (id : Nat) (b : UpdateBody) :
    (putItemHandler db id b).db.rows =
      db.rows.map (fun r => if r.id == id then applyCoalesce r b else r) := by
  simp only [putItemHandler]
  split <;> rfl

/-- The rows the DELETE handler stores, in both its branches. -/
theorem deleteItemHandler_rows (db : DB) (id : Nat) :
    (deleteItemHandler db id).db.rows = db.rows.filter (fun r => !(r.id == id)) := by
  simp only [deleteItemHandler]
  split <;> rfl

/-- One step of the amended quantity invariant: a create always stores an
effective quantity ≥ 1, and an update preserves the invariant provided it
does not itself supply a non-positive quantity. -/
theorem applyOp_quantity (db : DB) (op : Op)
    (hdb : ∀ r ∈ db.rows, 1 ≤ r.quantity) (hop : opQtyOK op) :
    ∀ r ∈ (applyOp db op).rows, 1 ≤ r.quantity := by
  cases op with
  | create b =>
      simp only [applyOp, postItemHandler]
      split
      · exact hdb
      · intro r hr
        rcases List.mem_append.mp hr with h1 | h2
        · exact hdb r h1
        · rcases List.mem_singleton.mp h2 with rfl
          exact one_le_effectiveQty b.quantity
  | update id b =>
      rw [applyOp, putItemHandler_rows]
      intro r hr
      rcases List.mem_map.mp hr with ⟨x, hx, hmap⟩
      by_cases hid : (x.id == id) = true
      · rw [if_pos hid] at hmap
        subst hmap
        show 1 ≤ b.quantity.getD x.quantity
        cases hq : b.quantity with
        | none => exact hdb x hx
        | some v => exact hop v hq
      · rw [if_neg hid] at hmap
        subst hmap
        exact hdb x hx
  | delete id =>
      rw [applyOp, deleteItemHandler_rows]
      intro r hr
      exact hdb r (List.mem_of_mem_filter hr)

/-- C1 amended: the create handler always stores quantity ≥ 1, but the
update handler performs no quantity validation; the ≥ 1 invariant holds after
a sequence of operations exactly as long as no update in it supplies a
non-positive quantity. -/
theorem C1_amended_quantity_invariant (db : DB) (ops : List Op)
    (hdb : ∀ r ∈ db.rows, 1 ≤ r.quantity)
    (hops : ∀ op ∈ ops, opQtyOK op) :
    ∀ r ∈ (applyOps db ops).rows, 1 ≤ r.quantity := by
  induction ops generalizing db with
  | nil => exact hdb
  | cons op t ih =>
      have hstep := applyOp_quantity db op hdb (hops op (List.mem_cons_self op t))
      exact ih (applyOp db op) hstep (fun o ho => hops o (List.mem_cons_of_mem op ho))

/-- Witness for the amended C1: a create with negative supplied quantity
followed by an update supplying quantity 5. -/
theorem C1_amended_quantity_invariant_witness :
    (∀ r ∈ initDB.rows, 1 ≤ r.quantity) ∧
    (∀ op ∈ [Op.create ⟨some "Milk", some (-3), none⟩, Op.update 1 ⟨none, some 5, none⟩],
       opQtyOK op) ∧
    (∀ r ∈ (applyOps initDB
        [Op.create ⟨some "Milk", some (-3), none⟩, Op.update 1 ⟨none, some 5, none⟩]).rows,
       1 ≤ r.quantity) := by
  have h1 : ∀ r ∈ initDB.rows, 1 ≤ r.quantity := by
    intro r hr
    cases hr
  have h2 : ∀ op ∈ [Op.create ⟨some "Milk", some (-3), none⟩, Op.update 1 ⟨none, some 5, none⟩],
      opQtyOK op := by
    intro op hop
    simp only [List.mem_cons, List.not_mem_nil, or_false] at hop
    rcases hop with h | h <;> subst h
    · trivial
    · intro q hq
      injection hq with h5
      omega
  exact ⟨h1, h2, C1_amended_quantity_invariant initDB _ h1 h2⟩
